import Mathlib

/-!
Verification development for the a2a weather-agent repository.

The Python sources are shallowly embedded as pure Lean functions:
JSON values become an inductive `Json`, Python subscripting / `dict.get` /
truthiness / `len` / iteration are modelled by total functions returning
`Except PyExn _` where the Python operation can raise, and the outbound
calls to the Tavily search service and the Gemini LLM are oracles passed
in as function parameters.
-/

/-- JSON values, as produced by Flask's `request.get_json()` and by the
`json` module.  Objects model parsed Python dicts (unique string keys,
in insertion order). -/
inductive Json where
  | null
  | bool (b : Bool)
  | num (n : Int)
  | str (s : String)
  | arr (elems : List Json)
  | obj (fields : List (String × Json))
deriving Repr

/-- Python exception classes that the embedded code can raise, together
with the payload that `str(e)` would show (representative text). -/
inductive PyExn where
  | keyError (k : String)
  | indexError
  | typeError (msg : String)
  | attributeError (msg : String)
deriving Repr, DecidableEq

/-- Python's name for the runtime type of a JSON-parsed value. -/
def pyTypeName : Json → String
  | .null => "NoneType"
  | .bool _ => "bool"
  | .num _ => "int"
  | .str _ => "str"
  | .arr _ => "list"
  | .obj _ => "dict"

/-- `str(e)` for the exceptions above (representative message text;
`str(KeyError(k))` shows the repr of the key). -/
def PyExn.toStr : PyExn → String
  | .keyError k => "\x27" ++ k ++ "\x27"
  | .indexError => "list index out of range"
  | .typeError m => m
  | .attributeError m => m

/-- Which exception classes the `/tasks/send` route catches:
`except (KeyError, IndexError, TypeError)`. -/
def PyExn.isCaught : PyExn → Bool
  | .keyError _ => true
  | .indexError => true
  | .typeError _ => true
  | .attributeError _ => false

/-- First binding of a key in an object's field list. -/
def lookupField : List (String × Json) → String → Option Json
  | [], _ => none
  | (k, v) :: fs, key => if k == key then some v else lookupField fs key

/-- Field lookup on a JSON value (none when not an object or key absent). -/
def Json.lookup : Json → String → Option Json
  | .obj fs, k => lookupField fs k
  | _, _ => none

/-- Is the value a JSON object (a Python dict after parsing)? -/
def Json.isObj : Json → Bool
  | .obj _ => true
  | _ => false

/-- Python `x[k]` for a string key `k`: dict lookup (KeyError when the key
is absent), TypeError on every other type. -/
def pyGetField (j : Json) (k : String) : Except PyExn Json :=
  match j with
  | .obj fs =>
    match lookupField fs k with
    | some v => .ok v
    | none => .error (.keyError k)
  | .str _ => .error (.typeError "string indices must be integers")
  | .arr _ => .error (.typeError "list indices must be integers or slices, not str")
  | j => .error (.typeError ("\x27" ++ pyTypeName j ++ "\x27 object is not subscriptable"))

/-- Element of a list at a normalized (already wrapped) index, IndexError
when out of range. -/
def pyIndexAt (xs : List Json) (j : Int) : Except PyExn Json :=
  if j < 0 then .error .indexError
  else
    match xs[j.toNat]? with
    | some v => .ok v
    | none => .error .indexError

/-- Python `xs[i]` on a list, with negative indices counting from the end
and IndexError when out of range. -/
def pyListIndex (xs : List Json) (i : Int) : Except PyExn Json :=
  pyIndexAt xs (if i < 0 then i + xs.length else i)

/-- Python `s[i]` on a string: a one-character string, IndexError when out
of range. -/
def pyStrIndex (s : String) (i : Int) : Except PyExn Json :=
  let cs := s.data
  let j : Int := if i < 0 then i + cs.length else i
  if j < 0 then .error .indexError
  else
    match cs[j.toNat]? with
    | some c => .ok (.str (String.singleton c))
    | none => .error .indexError

/-- Python `x[i]` for an integer index `i`: list/string indexing, KeyError
on dicts (JSON-parsed dicts have string keys, so an int key is absent),
TypeError on the rest. -/
def pyGetIndex (j : Json) (i : Int) : Except PyExn Json :=
  match j with
  | .arr xs => pyListIndex xs i
  | .str s => pyStrIndex s i
  | .obj _ => .error (.keyError (toString i))
  | j => .error (.typeError ("\x27" ++ pyTypeName j ++ "\x27 object is not subscriptable"))

/-- Python `d.get(k, dflt)`: only dicts have a `get` method; every other
type raises AttributeError. -/
def pyDictGet (j : Json) (k : String) (dflt : Json) : Except PyExn Json :=
  match j with
  | .obj fs => .ok ((lookupField fs k).getD dflt)
  | j => .error (.attributeError ("\x27" ++ pyTypeName j ++ "\x27 object has no attribute \x27get\x27"))

/-- Python truthiness of a JSON-parsed value. -/
def pyTruthy : Json → Bool
  | .null => false
  | .bool b => b
  | .num n => n != 0
  | .str s => s != ""
  | .arr xs => !xs.isEmpty
  | .obj fs => !fs.isEmpty

/-- Python `len(x)`: lists, strings and dicts have a length; the rest
raise TypeError. -/
def pyLen : Json → Except PyExn Nat
  | .arr xs => .ok xs.length
  | .str s => .ok s.length
  | .obj fs => .ok fs.length
  | j => .error (.typeError ("object of type \x27" ++ pyTypeName j ++ "\x27 has no len()"))

/-- Python `for x in j`: lists yield elements, strings yield one-character
strings, dicts yield their keys, the rest raise TypeError. -/
def pyIter : Json → Except PyExn (List Json)
  | .arr xs => .ok xs
  | .str s => .ok (s.data.map (fun c => .str (String.singleton c)))
  | .obj fs => .ok (fs.map (fun kv => Json.str kv.1))
  | j => .error (.typeError ("\x27" ++ pyTypeName j ++ "\x27 object is not iterable"))

mutual
/-- Python `repr` of a JSON-parsed value (element rendering inside
containers; string escaping inside the quotes is not reproduced). -/
def pyRepr : Json → String
  | .null => "None"
  | .bool true => "True"
  | .bool false => "False"
  | .num n => toString n
  | .str s => "\x27" ++ s ++ "\x27"
  | .arr xs => "[" ++ String.intercalate ", " (pyReprList xs) ++ "]"
  | .obj fs => "\x7b" ++ String.intercalate ", " (pyReprFields fs) ++ "\x7d"

def pyReprList : List Json → List String
  | [] => []
  | x :: xs => pyRepr x :: pyReprList xs

def pyReprFields : List (String × Json) → List String
  | [] => []
  | (k, v) :: fs => ("\x27" ++ k ++ "\x27: " ++ pyRepr v) :: pyReprFields fs
end

/-- Python `str(x)` of a JSON-parsed value, as used by f-string
interpolation. -/
def pythonStr : Json → String
  | .str s => s
  | j => pyRepr j

/-! ### `samples/a2a-weather/server/weather_server.py` -/

/-- An incoming HTTP request as the Flask routes see it. -/
structure HttpRequest where
  method : String
  path : String
  body : Json

/-- Outcome of a Flask route: a (status, JSON body) response, or an
exception that escaped the handler. -/
inductive ServerResult where
  | response (status : Nat) (body : Json)
  | crashed (exn : PyExn)

/-- Oracles for the two outbound calls the server makes.  `search` is
`tavily.search(query, search_depth="basic", max_results=3)` returning the
response JSON or raising (payload is `str` of the raised exception);
`llm` is `llm.invoke(prompt).content`. -/
structure Effects where
  search : String → Except String Json
  llm : String → Except String String

/-- One outbound call, for tracing the order of effects. -/
inductive Call where
  | search (query : String)
  | llm (prompt : String)
deriving Repr, DecidableEq

/-- `agent_card`: the body returned by `GET /.well-known/agent.json`.
The handler reads nothing from the request. -/
def agentCardBody : Json :=
  .obj [("name", .str "WeatherBot"),
        ("description", .str "Get current weather information for any city using real-time data with AI-enhanced summaries"),
        ("url", .str "http://127.0.0.1:5000"),
        ("version", .str "1.0"),
        ("capabilities", .obj [("streaming", .bool false), ("pushNotifications", .bool false)])]

/-- The `/.well-known/agent.json` route (`agent_card` in the source):
`jsonify` of a fixed literal, ignoring the request. -/
def agent_card (_req : HttpRequest) : ServerResult :=
  .response 200 agentCardBody

/-- The first `try` block of `handle_task`:
`task_id = task_data.get("id")` followed by
`user_message = task_data["message"]["parts"][0]["text"]`. -/
def extractTask (body : Json) : Except PyExn (Json × Json × Json) :=
  match pyDictGet body "id" .null with
  | .error e => .error e
  | .ok taskId =>
    match pyGetField body "message" with
    | .error e => .error e
    | .ok message =>
      match pyGetField message "parts" with
      | .error e => .error e
      | .ok parts =>
        match pyGetIndex parts 0 with
        | .error e => .error e
        | .ok p0 =>
          match pyGetField p0 "text" with
          | .error e => .error e
          | .ok text => .ok (taskId, message, text)

/-- The f-string prompt template built in `handle_task` (triple-quoted,
so the 12-space indentation of the source lines is part of the text). -/
def weatherPrompt (userMessage combinedData : String) : String :=
  "\n            Based on the following weather search results, provide a concise and well-formatted weather summary for "
    ++ userMessage
    ++ ".\n            \n            Raw weather data:\n            "
    ++ combinedData
    ++ "\n            \n            Please provide:\n            1. Current temperature and conditions\n            2. Key weather details (humidity, wind, etc.)\n            3. Any relevant weather alerts or notable information\n            \n            Keep the response under 150 words and make it clear and easy to read.\n            "

/-- The loop `for result in search_results.get('results', []):
raw_weather_data.append(f"{result['title']}: {result['content']}")`,
stopping at the first raising iteration. -/
def collectRaw : List Json → Except PyExn (List String)
  | [] => .ok []
  | r :: rs =>
    match pyGetField r "title" with
    | .error e => .error e
    | .ok t =>
      match pyGetField r "content" with
      | .error e => .error e
      | .ok c =>
        match collectRaw rs with
        | .error e => .error e
        | .ok rest => .ok ((pythonStr t ++ ": " ++ pythonStr c) :: rest)

/-- `search_results.get('results', [])` iterated into the raw
weather-data strings. -/
def processResults (searchResults : Json) : Except PyExn (List String) :=
  match pyDictGet searchResults "results" (.arr []) with
  | .error e => .error e
  | .ok resultsJ =>
    match pyIter resultsJ with
    | .error e => .error e
    | .ok items => collectRaw items

/-- The no-results reply text. -/
def noWeatherText : String :=
  "Sorry, I couldn\x27t find current weather information for that location."

/-- The `except Exception as e` reply text of the second `try` block. -/
def errText (e : String) : String :=
  "I encountered an error getting weather data: " ++ e

/-- The second `try` block of `handle_task`: search, gather, summarize —
every exception inside it is caught and turned into `errText`.  Also
returns the trace of outbound calls actually made. -/
def weatherBody (eff : Effects) (userMessage : String) : String × List Call :=
  let q := "current weather " ++ userMessage
  match eff.search q with
  | .error e => (errText e, [.search q])
  | .ok searchResults =>
    match processResults searchResults with
    | .error exn => (errText exn.toStr, [.search q])
    | .ok raw =>
      if raw.isEmpty then (noWeatherText, [.search q])
      else
        let prompt := weatherPrompt userMessage (String.intercalate "\n\n" raw)
        match eff.llm prompt with
        | .error e => (errText e, [.search q, .llm prompt])
        | .ok content => (content, [.search q, .llm prompt])

/-- The agent-role reply message appended to the response. -/
def agentReplyMessage (text : String) : Json :=
  .obj [("role", .str "agent"), ("parts", .arr [.obj [("text", .str text)]])]

/-- The 200 response body of `handle_task`: id echo, completed status,
original message followed by the agent reply. -/
def taskResponse (taskId message : Json) (text : String) : Json :=
  .obj [("id", taskId),
        ("status", .obj [("state", .str "completed")]),
        ("messages", .arr [message, agentReplyMessage text])]

/-- The 400 body for malformed tasks. -/
def invalidTaskBody : Json :=
  .obj [("error", .str "Invalid A2A task format")]

/-- The `POST /tasks/send` route (`handle_task` in the source): extract
the task (caught failures give 400, an AttributeError escapes), run the
search/summarize block, and wrap the reply in the A2A envelope. -/
def handle_task (eff : Effects) (body : Json) : ServerResult × List Call :=
  match extractTask body with
  | .error e =>
    if e.isCaught then (.response 400 invalidTaskBody, [])
    else (.crashed e, [])
  | .ok (taskId, message, textJ) =>
    (.response 200 (taskResponse taskId message (weatherBody eff (pythonStr textJ)).1),
     (weatherBody eff (pythonStr textJ)).2)

/-! ### `samples/a2a-weather/client/weather_client.py` -/

/-- Exceptions `WeatherClient` methods can raise: the explicitly raised
`Exception(...)` of each raise site, or an uncaught KeyError/TypeError/
IndexError escaping the response unwrapping (only
`requests.exceptions.RequestException` is caught there). -/
inductive ClientErr where
  | notDiscovered
  | requestFailed (detail : String)
  | uncaught (detail : String)
deriving Repr, DecidableEq

/-- The message text of each `ClientErr`. -/
def ClientErr.message : ClientErr → String
  | .notDiscovered => "Agent not discovered. Call discover_agent() first."
  | .requestFailed d => "Weather request failed: " ++ d
  | .uncaught d => d

/-- Python truthiness of `self.agent_info` (None before discovery). -/
def pyTruthyOpt : Option Json → Bool
  | none => false
  | some j => pyTruthy j

/-- `WeatherClient.discover_agent`: GET the card; on success store and
return it, on a request failure raise and leave `agent_info` unchanged.
`getResult` is the outcome of `requests.get(...).json()`. -/
def discover_agent (agentInfo : Option Json) (getResult : Except String Json) :
    Except String Json × Option Json :=
  match getResult with
  | .ok j => (.ok j, some j)
  | .error e => (.error ("Could not discover agent: " ++ e), agentInfo)

/-- `messages[-1]["parts"][0]["text"]` with Python subscript semantics. -/
def lastMessageText (messages : Json) : Except PyExn Json :=
  match pyGetIndex messages (-1) with
  | .error e => .error e
  | .ok lastM =>
    match pyGetField lastM "parts" with
    | .error e => .error e
    | .ok parts =>
      match pyGetIndex parts 0 with
      | .error e => .error e
      | .ok p0 => pyGetField p0 "text"

/-- `WeatherClient.ask_weather` after the task payload is built:
`agentInfo` is `self.agent_info`, `postResult` the outcome of
`requests.post(...)` + `raise_for_status` + `.json()` (error = the
`RequestException` text).  Mirrors
`messages = result.get("messages", []); if messages and len(messages) > 1`. -/
def ask_weather (agentInfo : Option Json) (postResult : Except String Json) :
    Except ClientErr Json :=
  if pyTruthyOpt agentInfo = false then .error .notDiscovered
  else
    match postResult with
    | .error e => .error (.requestFailed e)
    | .ok result =>
      match pyDictGet result "messages" (.arr []) with
      | .error e => .error (.uncaught e.toStr)
      | .ok messages =>
        if pyTruthy messages = false then .ok (.str "No response received")
        else
          match pyLen messages with
          | .error e => .error (.uncaught e.toStr)
          | .ok n =>
            if 1 < n then
              match lastMessageText messages with
              | .error e => .error (.uncaught e.toStr)
              | .ok txt => .ok txt
            else .ok (.str "No response received")

/-! ### `samples/a2a-python-sdk/agents/weather_agent/agent.py` -/

/-- `search_weather`: the Tavily oracle is `tavily_search.invoke` (None
when `TavilySearch(max_results=3)` failed to initialize); the error
payload is `str` of the raised exception. -/
def weatherQuery (location : String) : String :=
  "current weather " ++ location ++ " today temperature conditions humidity wind"

/-- The `search_weather` tool: never raises; returns one of three dict
shapes depending on tool availability and search outcome. -/
def search_weather (tavilySearch : Option (String → Except String Json))
    (location : String) : List (String × Json) :=
  match tavilySearch with
  | none =>
    [("error", .str "Weather search service not available. Please set TAVILY_API_KEY environment variable."),
     ("location", .str location),
     ("mock_data", .str ("Mock weather for " ++ location ++ ": 72°F, Sunny, Light breeze"))]
  | some invoke =>
    match invoke (weatherQuery location) with
    | .ok results => [("weather_data", results), ("location", .str location)]
    | .error e => [("error", .str ("Failed to fetch weather data: " ++ e)), ("location", .str location)]

/-- `ResponseFormat.status` values. -/
inductive AgentStatus where
  | completed
  | input_required
  | error
deriving Repr, DecidableEq

/-- What the last message of one `graph.stream` item is, as far as
`WeatherAgent.stream` inspects it: an `AIMessage` with tool calls (with
the optional `location` argument of the first call), a `ToolMessage`, or
anything else. -/
inductive StreamItem where
  | aiToolCall (location : Option String)
  | toolResult
  | otherMsg
deriving Repr, DecidableEq

/-- The intermediate event `WeatherAgent.stream` yields for one item
(none when the item triggers no yield). -/
structure AgentEvent where
  is_task_complete : Bool
  require_user_input : Bool
  content : String
deriving Repr, DecidableEq

/-- The per-item yield of the loop in `WeatherAgent.stream`. -/
def eventOfItem : StreamItem → Option AgentEvent
  | .aiToolCall loc =>
    some ⟨false, false, "Searching for current weather in " ++ loc.getD "the specified location" ++ "..."⟩
  | .toolResult =>
    some ⟨false, false, "Processing weather data and formatting response..."⟩
  | .otherMsg => none

/-- `WeatherAgent._final_response`: the structured response recovered
from agent memory (`none` models a missing or non-`ResponseFormat`
`structured_response`). -/
def final_response (structured : Option (AgentStatus × String)) : AgentEvent :=
  match structured with
  | some (.completed, m) => ⟨true, false, m⟩
  | some (.input_required, m) => ⟨false, true, m⟩
  | some (.error, m) => ⟨false, true, m⟩
  | none => ⟨false, true, "Unable to process your weather request at the moment. Please try again."⟩

/-- `WeatherAgent.stream`: the yields of the item loop followed by the
single final yield.  The items and the structured response are the
external LLM agent's behaviour, passed as parameters. -/
def stream (items : List StreamItem) (structured : Option (AgentStatus × String)) :
    List AgentEvent :=
  items.filterMap eventOfItem ++ [final_response structured]

/-! ### `samples/a2a-python-sdk/agents/weather_agent/agent_executor.py` -/

/-- The ids of an A2A task (`task.id`, `task.context_id`). -/
structure TaskIds where
  id : String
  context_id : String
deriving Repr, DecidableEq

/-- Task lifecycle states used by the executor. -/
inductive TaskState where
  | submitted
  | working
  | input_required
  | completed
deriving Repr, DecidableEq

/-- Events the executor enqueues on the `EventQueue`: the freshly created
`Task` object, `TaskArtifactUpdateEvent`, and `TaskStatusUpdateEvent`. -/
inductive A2AEvent where
  | newTask (ids : TaskIds)
  | artifactUpdate (taskId contextId name description text : String)
      (append lastChunk : Bool)
  | statusUpdate (taskId contextId : String) (state : TaskState)
      (message : Option String) (final : Bool)
deriving Repr, DecidableEq

/-- The artifact description used by `new_text_artifact` in the source. -/
def artifactDescription : String :=
  "Current weather information for the requested location."

/-- The `RequestContext` as the executor reads it: the user message (if
any) and the current task (if resuming). -/
structure RequestContext where
  userInput : String
  message : Option Json
  current_task : Option TaskIds

/-- The events `WeatherAgentExecutor.execute` enqueues for one agent
stream event: artifact + completed status, an input-required status, or
a working progress status. -/
def eventsFor (t : TaskIds) (e : AgentEvent) : List A2AEvent :=
  if e.is_task_complete then
    [.artifactUpdate t.id t.context_id "weather_report" artifactDescription e.content false true,
     .statusUpdate t.id t.context_id .completed none true]
  else if e.require_user_input then
    [.statusUpdate t.id t.context_id .input_required (some e.content) true]
  else
    [.statusUpdate t.id t.context_id .working (some e.content) false]

/-- `WeatherAgentExecutor.execute`: raise when no message, create (and
enqueue) a fresh task when there is no current one (`freshIds` stands
for the ids `new_task` mints), then translate each event of
`self.agent.stream(...)` — the external agent behaviour, passed as
`agentEvents` — into queue events. -/
def execute (ctx : RequestContext) (freshIds : TaskIds)
    (agentEvents : List AgentEvent) : Except String (List A2AEvent) :=
  match ctx.message with
  | none => .error "No message provided"
  | some _ =>
    match ctx.current_task with
    | some t => .ok (agentEvents.flatMap (eventsFor t))
    | none => .ok (.newTask freshIds :: agentEvents.flatMap (eventsFor freshIds))

/-- `WeatherAgentExecutor.cancel`: unconditionally raises, enqueuing
nothing.  The result pairs the raised exception text with the (empty)
list of enqueued events. -/
def cancel (_ctx : RequestContext) : Except String Unit × List A2AEvent :=
  (.error "Cancel not supported", [])

/-! ### `samples/a2a-python-sdk/client/client.py` (`handle_streaming`) -/

/-- The slice of an SDK `Task` object that `handle_streaming` reads from
a `(task, response)` tuple update: `task.id`, `task.context_id`, and
`task.status.state` (required attributes of the SDK model). -/
structure TaskView where
  id : String
  context_id : String
  state : TaskState
deriving Repr, DecidableEq

/-- One update received from `client.send_message`: a `(task, _)` tuple
(whose task may be falsy), an object with `update.root.result` (whose
`context_id` / `taskId` / `status.state` attributes may each be absent,
modelled as `Option`), or anything else (ignored by the loop). -/
inductive StreamUpdate where
  | tup (task : Option TaskView)
  | rooted (context_id : Option String) (taskId : Option String)
      (state : Option TaskState)
  | otherUpdate
deriving Repr, DecidableEq

/-- Did this update carry a `completed` status?  Processing it makes
`handle_streaming` return early. -/
def isCompletedUpdate : StreamUpdate → Bool
  | .tup (some tv) => match tv.state with | .completed => true | _ => false
  | .rooted _ _ (some .completed) => true
  | _ => false

/-- The mutable loop state of `handle_streaming`. -/
structure LoopState where
  latestTaskId : Option String
  latestContextId : Option String
  inputRequired : Bool
deriving Repr, DecidableEq

/-- The assignments one update performs on the loop state (the early
return on `completed` is handled by the loop itself). -/
def stepState (s : LoopState) (u : StreamUpdate) : LoopState :=
  match u with
  | .tup none => s
  | .tup (some tv) =>
    let s1 := { s with latestContextId := some tv.context_id, latestTaskId := some tv.id }
    match tv.state with
    | .input_required => { s1 with inputRequired := true }
    | _ => s1
  | .rooted ctx tid st =>
    let s1 := match ctx with
      | some c => { s with latestContextId := some c }
      | none => s
    match st with
    | some .input_required =>
      { s1 with
        latestTaskId := match tid with | some t => some t | none => s1.latestTaskId,
        inputRequired := true }
    | _ => s1
  | .otherUpdate => s

/-- The post-loop decision
`if input_required and latest_task_id and latest_context_id:` — the ids
of the follow-up message when one is sent (empty strings are falsy). -/
def finishDecision (s : LoopState) : Option (String × String) :=
  if s.inputRequired then
    match s.latestTaskId, s.latestContextId with
    | some t, some c => if t = "" ∨ c = "" then none else some (t, c)
    | _, _ => none
  else none

/-- The update-consuming loop of `handle_streaming`: a processed
`completed` update returns from the whole function (no follow-up);
otherwise the state assignments are applied and the loop continues. -/
def streamLoop (s : LoopState) : List StreamUpdate → Option (String × String)
  | [] => finishDecision s
  | u :: rest =>
    if isCompletedUpdate u then none
    else streamLoop (stepState s u) rest

/-- `handle_streaming`, reduced to its continuation effect: the task and
context ids of the follow-up message it sends after prompting the user,
or `none` when no follow-up message is sent.  Console output is not
modelled. -/
def handle_streaming (updates : List StreamUpdate) : Option (String × String) :=
  streamLoop ⟨none, none, false⟩ updates

/-- The loop state after all assignments, ignoring early returns (used
to phrase which ids were captured by an exchange). -/
def finalState (updates : List StreamUpdate) : LoopState :=
  updates.foldl stepState ⟨none, none, false⟩

/-! ### `samples/a2a-python-sdk/agents/weather_agent/__main__.py` -/

/-- `AgentCapabilities` of the SDK card. -/
structure AgentCapabilities where
  streaming : Bool
  pushNotifications : Bool
deriving Repr, DecidableEq

/-- An `AgentSkill` of the SDK card. -/
structure AgentSkill where
  id : String
  name : String
  description : String
  tags : List String
  examples : List String
deriving Repr, DecidableEq

/-- The SDK `AgentCard`. -/
structure AgentCard where
  name : String
  description : String
  url : String
  version : String
  capabilities : AgentCapabilities
  defaultInputModes : List String
  defaultOutputModes : List String
  skills : List AgentSkill
deriving Repr, DecidableEq

/-- `WeatherAgent.SUPPORTED_CONTENT_TYPES`. -/
def SUPPORTED_CONTENT_TYPES : List String := ["text/plain"]

/-- `build_agent_card`: the static discovery card the SDK server serves,
a pure function of the host/port configuration. -/
def build_agent_card (host : String) (port : Nat) : AgentCard :=
  { name := "Weather Agent",
    description := "Provides real-time weather information for any location using advanced search capabilities. Get current conditions, temperature, humidity, wind speed, and personalized recommendations.",
    url := "http://" ++ host ++ ":" ++ toString port ++ "/",
    version := "1.0.0",
    capabilities := { streaming := true, pushNotifications := true },
    defaultInputModes := SUPPORTED_CONTENT_TYPES,
    defaultOutputModes := SUPPORTED_CONTENT_TYPES,
    skills := [{ id := "get_weather",
                 name := "Get Current Weather",
                 description := "Get real-time weather information including temperature, conditions, humidity, and wind for any location worldwide. Provides personalized recommendations based on current conditions.",
                 tags := ["weather", "temperature", "forecast", "conditions", "climate", "humidity", "wind", "realtime"],
                 examples := ["What\x27s the weather like in New York?",
                              "Current weather in London, UK",
                              "Tell me about the weather in Tokyo",
                              "How\x27s the weather in San Francisco today?",
                              "Weather conditions in Mumbai, India",
                              "What should I wear in Chicago today?"] }] }

/-! ## Claims -/

/-- C6 counterexample: the simple weather server's discovery document
(`agent_card` in `weather_server.py`) has no "skills" field at all, so
the claim that the document served at `/.well-known/agent.json` contains
the agent's skills is false for this endpoint. -/
theorem C6_counterexample :
    agent_card ⟨"GET", "/.well-known/agent.json", .null⟩
      = ServerResult.response 200 agentCardBody
    ∧ agentCardBody.lookup "skills" = none :=
  ⟨rfl, rfl⟩

/-- C6 (amended): both discovery documents are static — the simple
server's route ignores the request entirely, and the SDK server's card
is a pure function of its host/port configuration — and both contain the
agent's name and capabilities; the SDK card additionally contains a
non-empty skills list, while the simple server's card has no skills
field. -/
theorem C6_amended :
    (∀ r₁ r₂ : HttpRequest, agent_card r₁ = agent_card r₂)
    ∧ (∀ r : HttpRequest,
        agent_card r = ServerResult.response 200 agentCardBody
        ∧ (agentCardBody.lookup "name").isSome = true
        ∧ (agentCardBody.lookup "capabilities").isSome = true
        ∧ agentCardBody.lookup "skills" = none)
    ∧ (∀ (host : String) (port : Nat),
        (build_agent_card host port).name = "Weather Agent"
        ∧ (build_agent_card host port).capabilities = ⟨true, true⟩
        ∧ (build_agent_card host port).skills ≠ []) := by
  refine ⟨fun r₁ r₂ => rfl, fun r => ⟨rfl, rfl, rfl, rfl⟩, fun host port => ⟨rfl, rfl, ?_⟩⟩
  simp [build_agent_card]

/-- C10: `WeatherAgentExecutor.cancel` raises `Cancel not supported` for
every request context, never succeeds, and never enqueues any event. -/
theorem C10_cancel (ctx : RequestContext) :
    (cancel ctx).1 = .error "Cancel not supported"
    ∧ (cancel ctx).2 = ([] : List A2AEvent)
    ∧ ∀ u : Unit, (cancel ctx).1 ≠ .ok u :=
  ⟨rfl, rfl, fun _ h => Except.noConfusion h⟩

/-- C9: `search_weather` is total (it is a function, every branch
returns), the value at "location" is always the requested location, and
the key sets are exactly error/location/mock_data when the Tavily client
is missing, error/location when the search call raises, and
weather_data/location on success. -/
theorem C9_search_weather (tavilySearch : Option (String → Except String Json))
    (loc : String) :
    lookupField (search_weather tavilySearch loc) "location" = some (.str loc)
    ∧ (tavilySearch = none →
        (search_weather tavilySearch loc).map Prod.fst
          = ["error", "location", "mock_data"])
    ∧ (∀ f e, tavilySearch = some f → f (weatherQuery loc) = .error e →
        (search_weather tavilySearch loc).map Prod.fst = ["error", "location"])
    ∧ (∀ f r, tavilySearch = some f → f (weatherQuery loc) = .ok r →
        (search_weather tavilySearch loc).map Prod.fst
          = ["weather_data", "location"]) := by
  refine ⟨?_, ?_, ?_, ?_⟩
  · cases tavilySearch with
    | none => rfl
    | some f =>
      cases hf : f (weatherQuery loc) with
      | ok r => simp [search_weather, hf, lookupField]
      | error e => simp [search_weather, hf, lookupField]
  · intro h; subst h; rfl
  · intro f e h hf; subst h; simp [search_weather, hf]
  · intro f r h hf; subst h; simp [search_weather, hf]

/-- C9 witness: with the Tavily client missing, the dict for "Paris"
carries the location and exactly the keys error/location/mock_data. -/
theorem C9_witness :
    lookupField (search_weather none "Paris") "location" = some (.str "Paris")
    ∧ (search_weather none "Paris").map Prod.fst
        = ["error", "location", "mock_data"] :=
  ⟨(C9_search_weather none "Paris").1, (C9_search_weather none "Paris").2.1 rfl⟩

/-- C3: every event `WeatherAgent.stream` yields before its last yield
has `is_task_complete = False`; only the single final yield can be the
completing one. -/
theorem C3_stream_order (items : List StreamItem)
    (structured : Option (AgentStatus × String)) :
    ∀ e ∈ (stream items structured).dropLast, e.is_task_complete = false := by
  intro e he
  rw [stream, List.dropLast_concat] at he
  rcases List.mem_filterMap.mp he with ⟨item, _, hf⟩
  cases item with
  | aiToolCall loc => simp [eventOfItem] at hf; simp [← hf]
  | toolResult => simp [eventOfItem] at hf; simp [← hf]
  | otherMsg => simp [eventOfItem] at hf

/-- C3 witness: in a run that searches, processes and completes, the
intermediate "Processing..." event is not task-completing. -/
theorem C3_witness :
    (⟨false, false, "Processing weather data and formatting response..."⟩
      : AgentEvent).is_task_complete = false :=
  C3_stream_order [.aiToolCall (some "Paris"), .toolResult]
    (some (.completed, "Sunny in Paris"))
    ⟨false, false, "Processing weather data and formatting response..."⟩
    (by decide)

/-- Shape of the chunk `execute` enqueues for one agent event: either the
artifact/completed pair, or a single non-completed status update. -/
theorem eventsFor_shape (t : TaskIds) (e : AgentEvent) :
    (e.is_task_complete = true ∧
      eventsFor t e =
        [.artifactUpdate t.id t.context_id "weather_report" artifactDescription e.content false true,
         .statusUpdate t.id t.context_id .completed none true])
    ∨ (∃ st m fin, st ≠ TaskState.completed ∧
        eventsFor t e = [.statusUpdate t.id t.context_id st m fin]) := by
  by_cases h : e.is_task_complete = true
  · exact Or.inl ⟨h, by simp [eventsFor, h]⟩
  · by_cases h2 : e.require_user_input = true
    · exact Or.inr ⟨.input_required, some e.content, true, by decide, by simp [eventsFor, h, h2]⟩
    · exact Or.inr ⟨.working, some e.content, false, by decide, by simp [eventsFor, h, h2]⟩

/-- In the concatenation of per-event chunks, every completed status
update sits right after its weather_report artifact, whose text is the
content of a completing agent event. -/
theorem flatMap_completed_prev (t : TaskIds) (evs : List AgentEvent) :
    ∀ (i : Nat) (tid cid : String) (m : Option String),
      (evs.flatMap (eventsFor t))[i]?
        = some (.statusUpdate tid cid .completed m true) →
      0 < i ∧ ∃ txt,
        (evs.flatMap (eventsFor t))[i-1]?
          = some (.artifactUpdate tid cid "weather_report" artifactDescription txt false true)
        ∧ ∃ e ∈ evs, e.is_task_complete = true ∧ e.content = txt := by
  induction evs with
  | nil => intro i tid cid m h; simp at h
  | cons e rest ih =>
    intro i tid cid m h
    rw [List.flatMap_cons] at h
    rcases eventsFor_shape t e with ⟨hc, hchunk⟩ | ⟨st, m0, fin, hst, hchunk⟩
    · rw [hchunk, List.cons_append, List.cons_append, List.nil_append] at h
      match i with
      | 0 =>
        rw [List.getElem?_cons_zero] at h
        exact A2AEvent.noConfusion (Option.some.inj h)
      | 1 =>
        rw [List.getElem?_cons_succ, List.getElem?_cons_zero] at h
        have h' := Option.some.inj h
        simp only [A2AEvent.statusUpdate.injEq] at h'
        obtain ⟨h1, h2, -, h4, -⟩ := h'
        refine ⟨Nat.one_pos, e.content, ?_, e, List.mem_cons_self e rest, hc, rfl⟩
        rw [List.flatMap_cons, hchunk, List.cons_append, List.cons_append, List.nil_append]
        rw [List.getElem?_cons_zero]
        rw [h1, h2]
      | (k+2) =>
        rw [List.getElem?_cons_succ, List.getElem?_cons_succ] at h
        obtain ⟨hk, txt, hprev, e', he', hc', ht⟩ := ih k tid cid m h
        obtain ⟨j, rfl⟩ : ∃ j, k = j + 1 := ⟨k - 1, by omega⟩
        refine ⟨by omega, txt, ?_, e', List.mem_cons_of_mem e he', hc', ht⟩
        rw [List.flatMap_cons, hchunk, List.cons_append, List.cons_append, List.nil_append]
        have hidx : j + 1 + 2 - 1 = j + 2 := by omega
        rw [hidx, List.getElem?_cons_succ, List.getElem?_cons_succ]
        exact hprev
    · rw [hchunk, List.cons_append, List.nil_append] at h
      match i with
      | 0 =>
        rw [List.getElem?_cons_zero] at h
        have h' := Option.some.inj h
        simp only [A2AEvent.statusUpdate.injEq] at h'
        exact absurd h'.2.2.1 hst
      | (k+1) =>
        rw [List.getElem?_cons_succ] at h
        obtain ⟨hk, txt, hprev, e', he', hc', ht⟩ := ih k tid cid m h
        obtain ⟨j, rfl⟩ : ∃ j, k = j + 1 := ⟨k - 1, by omega⟩
        refine ⟨by omega, txt, ?_, e', List.mem_cons_of_mem e he', hc', ht⟩
        rw [List.flatMap_cons, hchunk, List.cons_append, List.nil_append]
        have hidx : j + 1 + 1 - 1 = j + 1 := by omega
        rw [hidx, List.getElem?_cons_succ]
        exact hprev

/-- C4: whenever `WeatherAgentExecutor.execute` enqueues a completed,
final status update for a task, the event enqueued immediately before it
is a `weather_report` artifact for the same task id and context id whose
text is the content of a completing agent event; a completed status is
never enqueued without that artifact. -/
theorem C4_executor_artifact (ctx : RequestContext) (freshIds : TaskIds)
    (agentEvents : List AgentEvent) (out : List A2AEvent)
    (hex : execute ctx freshIds agentEvents = .ok out)
    (i : Nat) (tid cid : String) (m : Option String)
    (h : out[i]? = some (.statusUpdate tid cid .completed m true)) :
    0 < i ∧ ∃ txt,
      out[i-1]?
        = some (.artifactUpdate tid cid "weather_report" artifactDescription txt false true)
      ∧ ∃ e ∈ agentEvents, e.is_task_complete = true ∧ e.content = txt := by
  unfold execute at hex
  cases hmsg : ctx.message with
  | none => rw [hmsg] at hex; exact Except.noConfusion hex
  | some msgv =>
    rw [hmsg] at hex
    cases htask : ctx.current_task with
    | some t =>
      rw [htask] at hex
      injection hex with hex
      subst hex
      exact flatMap_completed_prev t agentEvents i tid cid m h
    | none =>
      rw [htask] at hex
      injection hex with hex
      subst hex
      match i with
      | 0 =>
        rw [List.getElem?_cons_zero] at h
        exact A2AEvent.noConfusion (Option.some.inj h)
      | (k+1) =>
        rw [List.getElem?_cons_succ] at h
        obtain ⟨hk, txt, hprev, hrest⟩ := flatMap_completed_prev freshIds agentEvents k tid cid m h
        obtain ⟨j, rfl⟩ : ∃ j, k = j + 1 := ⟨k - 1, by omega⟩
        refine ⟨by omega, txt, ?_, hrest⟩
        have hidx : j + 1 + 1 - 1 = j + 1 := by omega
        rw [hidx, List.getElem?_cons_succ]
        exact hprev

/-- The request context used by the C4 witness: a resumed task with ids
task-9 / ctx-9. -/
def c4ctx : RequestContext :=
  ⟨"weather in Paris", some (Json.obj [("role", Json.str "user")]), some ⟨"task-9", "ctx-9"⟩⟩

/-- C4 witness: a single completing agent event produces the artifact
followed by the completed status, and the theorem recovers the artifact
at the preceding index. -/
theorem C4_witness :
    0 < 1 ∧ ∃ txt,
      [A2AEvent.artifactUpdate "task-9" "ctx-9" "weather_report" artifactDescription "Sunny" false true,
       A2AEvent.statusUpdate "task-9" "ctx-9" .completed none true][(1:Nat)-1]?
        = some (.artifactUpdate "task-9" "ctx-9" "weather_report" artifactDescription txt false true)
      ∧ ∃ e ∈ [(⟨true, false, "Sunny"⟩ : AgentEvent)],
          e.is_task_complete = true ∧ e.content = txt :=
  C4_executor_artifact c4ctx ⟨"fresh-t", "fresh-c"⟩ [⟨true, false, "Sunny"⟩]
    [A2AEvent.artifactUpdate "task-9" "ctx-9" "weather_report" artifactDescription "Sunny" false true,
     A2AEvent.statusUpdate "task-9" "ctx-9" .completed none true]
    rfl 1 "task-9" "ctx-9" none rfl

/-- Without a completed update the loop runs to the end, and the
follow-up decision is taken on the folded state. -/
theorem streamLoop_no_completed (updates : List StreamUpdate) :
    ∀ s : LoopState, (∀ u ∈ updates, isCompletedUpdate u = false) →
      streamLoop s updates = finishDecision (updates.foldl stepState s) := by
  induction updates with
  | nil => intro s _; rfl
  | cons u rest ih =>
    intro s hall
    have hu : isCompletedUpdate u = false := hall u (List.mem_cons_self u rest)
    simp only [streamLoop, hu, Bool.false_eq_true, if_false, List.foldl_cons]
    exact ih (stepState s u) (fun v hv => hall v (List.mem_cons_of_mem u hv))

/-- A processed completed update makes the loop return with no
follow-up. -/
theorem streamLoop_completed (updates : List StreamUpdate) :
    ∀ s : LoopState, (∃ u ∈ updates, isCompletedUpdate u = true) →
      streamLoop s updates = none := by
  induction updates with
  | nil => intro s h; rcases h with ⟨u, hu, -⟩; exact absurd hu (List.not_mem_nil u)
  | cons u rest ih =>
    intro s h
    by_cases hu : isCompletedUpdate u = true
    · simp [streamLoop, hu]
    · rcases h with ⟨v, hv, hcv⟩
      rcases List.mem_cons.mp hv with rfl | hvr
      · exact absurd hcv hu
      · simp only [streamLoop, hu, Bool.false_eq_true, if_false]
        exact ih (stepState s u) ⟨v, hvr, hcv⟩

/-- C5 (amended): when the streamed exchange contains no completed
update, some update carried `input_required`, and both a non-empty task
id and a non-empty context id were captured, `handle_streaming` sends a
follow-up message carrying exactly those ids; when either id was not
captured — or a completed update ends the loop early — no follow-up
message is sent. -/
theorem C5_follow_up (updates : List StreamUpdate) :
    ((∀ u ∈ updates, isCompletedUpdate u = false) →
      ∀ t c, (finalState updates).inputRequired = true →
        (finalState updates).latestTaskId = some t →
        (finalState updates).latestContextId = some c →
        t ≠ "" → c ≠ "" →
        handle_streaming updates = some (t, c))
    ∧ ((∀ u ∈ updates, isCompletedUpdate u = false) →
        ((finalState updates).latestTaskId = none
          ∨ (finalState updates).latestContextId = none) →
        handle_streaming updates = none)
    ∧ ((∃ u ∈ updates, isCompletedUpdate u = true) →
        handle_streaming updates = none) := by
  refine ⟨?_, ?_, ?_⟩
  · intro hall t c hreq ht hc hts hcs
    rw [handle_streaming, streamLoop_no_completed updates _ hall]
    rw [finalState] at hreq ht hc
    simp only [finishDecision, hreq, if_true, ht, hc]
    rw [if_neg]
    rintro (h | h)
    · exact hts h
    · exact hcs h
  · intro hall hor
    rw [handle_streaming, streamLoop_no_completed updates _ hall]
    rw [finalState] at hor
    rcases hor with h | h
    · simp [finishDecision, h]
    · cases hlt : (updates.foldl stepState ⟨none, none, false⟩).latestTaskId <;>
        simp [finishDecision, h, hlt]
  · exact streamLoop_completed updates _

/-- C5 counterexample: an exchange whose first update carries
`input_required` with both ids captured, followed by a completed update.
The claim as stated demands a follow-up with ids ("t1", "c1"), but the
loop returns early on the completed update and sends none. -/
theorem C5_counterexample :
    handle_streaming
        [.tup (some ⟨"t1", "c1", .input_required⟩),
         .tup (some ⟨"t1", "c1", .completed⟩)] = none
    ∧ (finalState
        [.tup (some ⟨"t1", "c1", .input_required⟩),
         .tup (some ⟨"t1", "c1", .completed⟩)]).inputRequired = true
    ∧ (finalState
        [.tup (some ⟨"t1", "c1", .input_required⟩),
         .tup (some ⟨"t1", "c1", .completed⟩)]).latestTaskId = some "t1"
    ∧ (finalState
        [.tup (some ⟨"t1", "c1", .input_required⟩),
         .tup (some ⟨"t1", "c1", .completed⟩)]).latestContextId = some "c1" :=
  ⟨rfl, rfl, rfl, rfl⟩

/-- C5 witness: a single input-required update with ids t1/c1 makes the
client prompt and resend with exactly those ids. -/
theorem C5_witness :
    handle_streaming [.tup (some ⟨"t1", "c1", .input_required⟩)] = some ("t1", "c1") :=
  (C5_follow_up [.tup (some ⟨"t1", "c1", .input_required⟩)]).1
    (by decide) "t1" "c1" rfl rfl rfl (by decide) (by decide)

/-- A successful `Json.lookup` exposes the object's field list. -/
theorem Json.lookup_obj {j : Json} {k : String} {v : Json} (h : j.lookup k = some v) :
    ∃ fs, j = .obj fs ∧ lookupField fs k = some v := by
  cases j with
  | obj fs => exact ⟨fs, rfl, h⟩
  | null => exact absurd h (by simp [Json.lookup])
  | bool b => exact absurd h (by simp [Json.lookup])
  | num n => exact absurd h (by simp [Json.lookup])
  | str s => exact absurd h (by simp [Json.lookup])
  | arr xs => exact absurd h (by simp [Json.lookup])

/-- `xs[-1]` of a nonempty list is its last element. -/
theorem pyListIndex_neg_one (xs : List Json) (v : Json) (hne : xs ≠ [])
    (h : xs.getLast? = some v) : pyListIndex xs (-1) = .ok v := by
  have hlen : 0 < xs.length := List.length_pos.mpr hne
  rw [pyListIndex, if_pos (by decide : (-1 : Int) < 0)]
  rw [pyIndexAt, if_neg (by omega : ¬ ((-1 : Int) + xs.length < 0))]
  have htn : ((-1 : Int) + xs.length).toNat = xs.length - 1 := by omega
  rw [htn, ← List.getLast?_eq_getElem?, h]

/-- `xs[0]` of a list with a head is that head. -/
theorem pyListIndex_zero (xs : List Json) (v : Json) (h : xs.head? = some v) :
    pyListIndex xs 0 = .ok v := by
  rw [pyListIndex, if_neg (by decide : ¬ ((0 : Int) < 0))]
  rw [pyIndexAt, if_neg (by decide : ¬ ((0 : Int) < 0))]
  rw [show ((0 : Int)).toNat = 0 from rfl, ← List.head?_eq_getElem?, h]

/-- With a truthy stored agent card, `ask_weather` never raises the
not-discovered exception. -/
theorem ask_weather_truthy_ne (st : Option Json) (post : Except String Json)
    (h : pyTruthyOpt st = true) :
    ask_weather st post ≠ .error .notDiscovered := by
  intro hc
  simp [ask_weather, h] at hc
  repeat' split at hc
  all_goals simp at hc

/-- C7 (amended): `ask_weather` raises the "Agent not discovered" error
iff the stored agent card is falsy (`None` before any successful
`discover_agent`, or an empty discovered card); once the stored card is
truthy, it returns `messages[-1].parts[0].text` when the messages list
has more than one entry and the last message carries that structure
(a malformed last message raises the underlying KeyError/TypeError
instead, which `ask_weather` does not catch), and returns
"No response received" when the messages list has at most one entry. -/
theorem C7_ask_weather (st : Option Json) (post : Except String Json) :
    (ask_weather st post = .error .notDiscovered ↔ pyTruthyOpt st = false)
    ∧ (∀ result ms, pyTruthyOpt st = true → post = .ok result →
        result.lookup "messages" = some (.arr ms) → ms.length ≤ 1 →
        ask_weather st post = .ok (.str "No response received"))
    ∧ (∀ result ms lastM ps p0 t, pyTruthyOpt st = true → post = .ok result →
        result.lookup "messages" = some (.arr ms) → 1 < ms.length →
        ms.getLast? = some lastM → lastM.lookup "parts" = some (.arr ps) →
        ps.head? = some p0 → p0.lookup "text" = some t →
        ask_weather st post = .ok t) := by
  refine ⟨⟨?_, ?_⟩, ?_, ?_⟩
  · intro hc
    by_contra hne
    have h : pyTruthyOpt st = true := by
      cases hb : pyTruthyOpt st with
      | false => exact absurd hb hne
      | true => rfl
    exact ask_weather_truthy_ne st post h hc
  · intro h
    simp [ask_weather, h]
  · intro result ms h hp hm hlen
    subst hp
    obtain ⟨fs, rfl, hm'⟩ := Json.lookup_obj hm
    cases ms with
    | nil => simp [ask_weather, h, pyDictGet, hm', pyTruthy]
    | cons m ms' =>
      cases ms' with
      | nil => simp [ask_weather, h, pyDictGet, hm', pyTruthy, pyLen]
      | cons m' ms'' =>
        exact absurd hlen (by simp only [List.length_cons]; omega)
  · intro result ms lastM ps p0 t h hp hm hlt hlast hparts hhead htext
    subst hp
    obtain ⟨fs, rfl, hm'⟩ := Json.lookup_obj hm
    obtain ⟨lfs, rfl, hparts'⟩ := Json.lookup_obj hparts
    obtain ⟨pfs, rfl, htext'⟩ := Json.lookup_obj htext
    have hne : ms ≠ [] := by
      intro hnil
      subst hnil
      simp at hlt
    have hlast' : pyListIndex ms (-1) = .ok (.obj lfs) :=
      pyListIndex_neg_one ms _ hne hlast
    have hhead' : pyListIndex ps 0 = .ok (.obj pfs) :=
      pyListIndex_zero ps _ hhead
    have htruthy : pyTruthy (.arr ms) = true := by
      cases ms with
      | nil => exact absurd rfl hne
      | cons a l => rfl
    simp [ask_weather, h, pyDictGet, hm', htruthy, pyLen, hlt, lastMessageText,
          pyGetIndex, hlast', pyGetField, hparts', hhead', htext']

/-- The agent card stored by the counterexample and witness clients. -/
def c7card : Json := .obj [("name", .str "WeatherBot")]

/-- C7 counterexample: a discovered client receiving the response JSON
`{"messages": [null, null]}` — the messages list has more than one
entry, so the claim says `messages[-1].parts[0].text` is returned, but
subscripting the last message raises an uncaught TypeError instead. -/
theorem C7_counterexample :
    ask_weather (some c7card) (.ok (.obj [("messages", .arr [.null, .null])]))
      = .error (.uncaught "\x27NoneType\x27 object is not subscriptable") := rfl

/-- C7 witness: a discovered client with a well-formed two-message
response gets the agent's text back. -/
theorem C7_witness :
    ask_weather (some c7card)
      (.ok (.obj [("messages",
        .arr [.obj [("role", .str "user")],
              .obj [("parts", .arr [.obj [("text", .str "Sunny")]])]])]))
      = .ok (.str "Sunny") :=
  (C7_ask_weather (some c7card) _).2.2 _ _ _ _ _ _ rfl rfl rfl (by decide)
    rfl rfl rfl rfl

/-- Every failure of `pyGetField` is a KeyError or TypeError — both
caught by the `/tasks/send` route. -/
theorem pyGetField_err (j : Json) (k : String) (e : PyExn)
    (h : pyGetField j k = .error e) : e.isCaught = true := by
  cases j with
  | obj fs =>
    cases hlf : lookupField fs k with
    | some v => simp [pyGetField, hlf] at h
    | none =>
      simp only [pyGetField, hlf, Except.error.injEq] at h
      subst h; rfl
  | null => simp only [pyGetField, Except.error.injEq] at h; subst h; rfl
  | bool b => simp only [pyGetField, Except.error.injEq] at h; subst h; rfl
  | num n => simp only [pyGetField, Except.error.injEq] at h; subst h; rfl
  | str s => simp only [pyGetField, Except.error.injEq] at h; subst h; rfl
  | arr xs => simp only [pyGetField, Except.error.injEq] at h; subst h; rfl

/-- Every failure of `pyIndexAt` is an IndexError. -/
theorem pyIndexAt_err (xs : List Json) (j : Int) (e : PyExn)
    (h : pyIndexAt xs j = .error e) : e = .indexError := by
  rw [pyIndexAt] at h
  split at h
  · exact (Except.error.inj h).symm
  · split at h
    · exact absurd h (by simp)
    · exact (Except.error.inj h).symm

/-- Every failure of `pyStrIndex` is an IndexError. -/
theorem pyStrIndex_err (s : String) (i : Int) (e : PyExn)
    (h : pyStrIndex s i = .error e) : e = .indexError := by
  simp only [pyStrIndex] at h
  repeat' split at h
  all_goals first
    | exact (Except.error.inj h).symm
    | exact absurd h (by simp)

/-- Every failure of `pyGetIndex` is a KeyError, IndexError or TypeError
— all caught by the `/tasks/send` route. -/
theorem pyGetIndex_err (j : Json) (i : Int) (e : PyExn)
    (h : pyGetIndex j i = .error e) : e.isCaught = true := by
  cases j with
  | arr xs =>
    rw [pyGetIndex, pyListIndex] at h
    rw [pyIndexAt_err _ _ _ h]; rfl
  | str s =>
    rw [pyGetIndex] at h
    rw [pyStrIndex_err _ _ _ h]; rfl
  | obj fs => simp only [pyGetIndex, Except.error.injEq] at h; subst h; rfl
  | null => simp only [pyGetIndex, Except.error.injEq] at h; subst h; rfl
  | bool b => simp only [pyGetIndex, Except.error.injEq] at h; subst h; rfl
  | num n => simp only [pyGetIndex, Except.error.injEq] at h; subst h; rfl

/-- On a JSON-object body, every failure of the task extraction is a
caught exception (so `/tasks/send` answers 400). -/
theorem extractTask_obj_caught (fs : List (String × Json)) (e : PyExn)
    (h : extractTask (.obj fs) = .error e) : e.isCaught = true := by
  simp only [extractTask, pyDictGet] at h
  cases h1 : pyGetField (.obj fs) "message" with
  | error e1 =>
    simp only [h1, Except.error.injEq] at h
    subst h
    exact pyGetField_err _ _ _ h1
  | ok mv =>
    simp only [h1] at h
    cases h2 : pyGetField mv "parts" with
    | error e2 =>
      simp only [h2, Except.error.injEq] at h
      subst h
      exact pyGetField_err _ _ _ h2
    | ok pv =>
      simp only [h2] at h
      cases h3 : pyGetIndex pv 0 with
      | error e3 =>
        simp only [h3, Except.error.injEq] at h
        subst h
        exact pyGetIndex_err _ _ _ h3
      | ok p0 =>
        simp only [h3] at h
        cases h4 : pyGetField p0 "text" with
        | error e4 =>
          simp only [h4, Except.error.injEq] at h
          subst h
          exact pyGetField_err _ _ _ h4
        | ok tv =>
          simp only [h4] at h
          exact absurd h (by simp)

/-- On a non-object body, the extraction raises AttributeError
(`.get` on a non-dict), which the route does not catch. -/
theorem extractTask_not_obj (body : Json) (hno : body.isObj = false) :
    ∃ m, extractTask body = .error (.attributeError m)
      ∧ PyExn.isCaught (.attributeError m) = false := by
  cases body with
  | obj fs => simp [Json.isObj] at hno
  | null => exact ⟨_, rfl, rfl⟩
  | bool b => exact ⟨_, rfl, rfl⟩
  | num n => exact ⟨_, rfl, rfl⟩
  | str s => exact ⟨_, rfl, rfl⟩
  | arr xs => exact ⟨_, rfl, rfl⟩

/-- A successful extraction exposes the body's object fields, the echoed
task id and the echoed message. -/
theorem extractTask_ok (body : Json) (tid msg txt : Json)
    (h : extractTask body = .ok (tid, msg, txt)) :
    ∃ fs, body = .obj fs
      ∧ tid = (lookupField fs "id").getD .null
      ∧ lookupField fs "message" = some msg := by
  cases body with
  | null => exact absurd h (by simp [extractTask, pyDictGet])
  | bool b => exact absurd h (by simp [extractTask, pyDictGet])
  | num n => exact absurd h (by simp [extractTask, pyDictGet])
  | str s => exact absurd h (by simp [extractTask, pyDictGet])
  | arr xs => exact absurd h (by simp [extractTask, pyDictGet])
  | obj fs =>
    refine ⟨fs, rfl, ?_⟩
    simp only [extractTask, pyDictGet] at h
    cases hlf : lookupField fs "message" with
    | none =>
      rw [show pyGetField (.obj fs) "message" = .error (.keyError "message") from by
            simp [pyGetField, hlf]] at h
      simp at h
    | some mv =>
      rw [show pyGetField (.obj fs) "message" = .ok mv from by
            simp [pyGetField, hlf]] at h
      cases h2 : pyGetField mv "parts" with
      | error e2 => simp only [h2] at h; exact absurd h (by simp)
      | ok pv =>
        simp only [h2] at h
        cases h3 : pyGetIndex pv 0 with
        | error e3 => simp only [h3] at h; exact absurd h (by simp)
        | ok p0 =>
          simp only [h3] at h
          cases h4 : pyGetField p0 "text" with
          | error e4 => simp only [h4] at h; exact absurd h (by simp)
          | ok tv =>
            simp only [h4, Except.ok.injEq, Prod.mk.injEq] at h
            exact ⟨h.1.symm, by rw [h.2.1]⟩

/-- Effects whose outbound calls always fail, for exercising the error
paths. -/
def nullEffects : Effects :=
  ⟨fun _ => .error "network down", fun _ => .error "network down"⟩

/-- C8 counterexample: the JSON body `null` lacks the
`message.parts[0].text` structure, yet `/tasks/send` does not answer
400 — `task_data.get("id")` raises an uncaught AttributeError (HTTP
500), because only KeyError/IndexError/TypeError are caught. -/
theorem C8_counterexample :
    handle_task nullEffects .null
      = (.crashed (.attributeError "\x27NoneType\x27 object has no attribute \x27get\x27"), []) :=
  rfl

/-- C8 (amended): `/tasks/send` returns 400 with
`{"error": "Invalid A2A task format"}` exactly when the body is a JSON
object lacking the `message.parts[0].text` structure; a body that is not
a JSON object raises an uncaught AttributeError instead of the 400.  For
every body that passes the check the response status is 200 with
`status.state = "completed"` even when the search call or the LLM call
raises — the exception text is embedded in the agent message via
`errText` and no error state is ever returned. -/
theorem C8_error_paths :
    (∀ (fs : List (String × Json)) (e : PyExn),
        extractTask (.obj fs) = .error e → e.isCaught = true)
    ∧ (∀ body : Json, body.isObj = false →
        ∃ m, extractTask body = .error (.attributeError m)
          ∧ PyExn.isCaught (.attributeError m) = false)
    ∧ (∀ (eff : Effects) (body : Json) (e : PyExn),
        extractTask body = .error e → e.isCaught = true →
        handle_task eff body = (.response 400 invalidTaskBody, []))
    ∧ (∀ (eff : Effects) (body : Json) (e : PyExn),
        extractTask body = .error e → e.isCaught = false →
        handle_task eff body = (.crashed e, []))
    ∧ (∀ (eff : Effects) (body tid msg txt : Json),
        extractTask body = .ok (tid, msg, txt) →
        (handle_task eff body).1
          = .response 200 (taskResponse tid msg (weatherBody eff (pythonStr txt)).1))
    ∧ (∀ (eff : Effects) (um : String) (e : String),
        eff.search ("current weather " ++ um) = .error e →
        (weatherBody eff um).1 = errText e)
    ∧ (∀ (eff : Effects) (um : String) (sr : Json) (raw : List String) (e : String),
        eff.search ("current weather " ++ um) = .ok sr →
        processResults sr = .ok raw → raw ≠ [] →
        eff.llm (weatherPrompt um (String.intercalate "\n\n" raw)) = .error e →
        (weatherBody eff um).1 = errText e) := by
  refine ⟨extractTask_obj_caught, extractTask_not_obj, ?_, ?_, ?_, ?_, ?_⟩
  · intro eff body e h hc
    simp [handle_task, h, hc]
  · intro eff body e h hc
    simp [handle_task, h, hc]
  · intro eff body tid msg txt h
    simp [handle_task, h]
  · intro eff um e hs
    simp [weatherBody, hs]
  · intro eff um sr raw e hs hp hraw hl
    have hre : raw.isEmpty = false := by
      cases raw with
      | nil => exact absurd rfl hraw
      | cons a l => rfl
    simp [weatherBody, hs, hp, hre, hl]

/-- C8 witness: the object body `{}` is missing "message", so the route
answers 400 with the fixed error body and makes no outbound call. -/
theorem C8_witness :
    handle_task nullEffects (.obj []) = (.response 400 invalidTaskBody, []) :=
  C8_error_paths.2.2.1 nullEffects (.obj []) (.keyError "message") rfl rfl

/-- C1: for every POST body with `message.parts[0].text` (and an "id"
field, whose value the claim references), `handle_task` answers 200 with
a JSON object whose "id" echoes the request's id, whose status.state is
"completed", and whose "messages" list has exactly two entries: the
original request message unchanged, then an agent-role message whose
single part's text is the reply text. -/
theorem C1_task_envelope (eff : Effects) (body : Json) (tid msg txtJ idv : Json)
    (h : extractTask body = .ok (tid, msg, txtJ))
    (hid : body.lookup "id" = some idv) :
    (handle_task eff body).1
      = .response 200 (taskResponse idv msg (weatherBody eff (pythonStr txtJ)).1)
    ∧ body.lookup "message" = some msg
    ∧ (taskResponse idv msg (weatherBody eff (pythonStr txtJ)).1).lookup "id"
        = some idv
    ∧ (taskResponse idv msg (weatherBody eff (pythonStr txtJ)).1).lookup "status"
        = some (.obj [("state", .str "completed")])
    ∧ (taskResponse idv msg (weatherBody eff (pythonStr txtJ)).1).lookup "messages"
        = some (.arr [msg, agentReplyMessage (weatherBody eff (pythonStr txtJ)).1]) := by
  obtain ⟨fs, rfl, htid, hmsg⟩ := extractTask_ok _ _ _ _ h
  have hid' : lookupField fs "id" = some idv := hid
  have htid' : tid = idv := by rw [htid, hid']; rfl
  subst htid'
  exact ⟨by simp [handle_task, h], hmsg, rfl, rfl, rfl⟩

/-- The message of the C1/C2 witness task. -/
def wMsg : Json :=
  .obj [("role", .str "user"), ("parts", .arr [.obj [("text", .str "London")]])]

/-- The body of the C1/C2 witness task. -/
def wBody : Json := .obj [("id", .str "task-1"), ("message", wMsg)]

/-- Effects of the C1/C2 witness: one search result and a fixed LLM
reply. -/
def wEffects : Effects :=
  ⟨fun _ => .ok (.obj [("results",
      .arr [.obj [("title", .str "Weather"), ("content", .str "Sunny, 20C")]])]),
   fun _ => .ok "Nice weather in London"⟩

/-- C1 witness: the concrete task for London gets the full envelope
back. -/
theorem C1_witness :
    (handle_task wEffects wBody).1
      = .response 200 (taskResponse (.str "task-1") wMsg (weatherBody wEffects "London").1)
    ∧ wBody.lookup "message" = some wMsg
    ∧ (taskResponse (.str "task-1") wMsg (weatherBody wEffects "London").1).lookup "id"
        = some (.str "task-1")
    ∧ (taskResponse (.str "task-1") wMsg (weatherBody wEffects "London").1).lookup "status"
        = some (.obj [("state", .str "completed")])
    ∧ (taskResponse (.str "task-1") wMsg (weatherBody wEffects "London").1).lookup "messages"
        = some (.arr [wMsg, agentReplyMessage (weatherBody wEffects "London").1]) :=
  C1_task_envelope wEffects wBody (.str "task-1") wMsg (.str "London") (.str "task-1")
    rfl rfl

/-- Is this traced call a search call? -/
def Call.isSearch : Call → Bool
  | .search _ => true
  | .llm _ => false

/-- The trace of `weatherBody` always begins with the single search
call. -/
theorem weatherBody_trace (eff : Effects) (um : String) :
    (weatherBody eff um).2.head? = some (.search ("current weather " ++ um))
    ∧ (weatherBody eff um).2.countP Call.isSearch = 1 := by
  cases hs : eff.search ("current weather " ++ um) with
  | error e => simp [weatherBody, hs, Call.isSearch]
  | ok sr =>
    cases hp : processResults sr with
    | error ex => simp [weatherBody, hs, hp, Call.isSearch]
    | ok raw =>
      cases hre : raw.isEmpty with
      | true => simp [weatherBody, hs, hp, hre, Call.isSearch]
      | false =>
        cases hl : eff.llm (weatherPrompt um (String.intercalate "\n\n" raw)) with
        | error e => simp [weatherBody, hs, hp, hre, hl, Call.isSearch]
        | ok content => simp [weatherBody, hs, hp, hre, hl, Call.isSearch]

/-- When search, result processing and the LLM all succeed,
`weatherBody` is exactly search-then-LLM with the LLM's reply. -/
theorem weatherBody_success (eff : Effects) (um : String) (sr : Json)
    (raw : List String) (reply : String)
    (hs : eff.search ("current weather " ++ um) = .ok sr)
    (hp : processResults sr = .ok raw) (hraw : raw ≠ [])
    (hl : eff.llm (weatherPrompt um (String.intercalate "\n\n" raw)) = .ok reply) :
    weatherBody eff um
      = (reply, [.search ("current weather " ++ um),
                 .llm (weatherPrompt um (String.intercalate "\n\n" raw))]) := by
  have hre : raw.isEmpty = false := by
    cases raw with
    | nil => exact absurd rfl hraw
    | cons a l => rfl
  simp [weatherBody, hs, hp, hre, hl]

/-- C2: for every well-formed task, `handle_task` first issues exactly
one search call, with query "current weather " followed by the user's
message text; when the search succeeds with usable results it then
forwards the concatenated results inside the templated prompt to exactly
one LLM call, whose text reply becomes the reply text of the 200
response. -/
theorem C2_linear_flow (eff : Effects) (body : Json) (tid msg txtJ : Json)
    (h : extractTask body = .ok (tid, msg, txtJ)) :
    (handle_task eff body).2.head?
        = some (.search ("current weather " ++ pythonStr txtJ))
    ∧ (handle_task eff body).2.countP Call.isSearch = 1
    ∧ (∀ sr raw reply,
        eff.search ("current weather " ++ pythonStr txtJ) = .ok sr →
        processResults sr = .ok raw → raw ≠ [] →
        eff.llm (weatherPrompt (pythonStr txtJ) (String.intercalate "\n\n" raw))
          = .ok reply →
        (handle_task eff body).2
          = [.search ("current weather " ++ pythonStr txtJ),
             .llm (weatherPrompt (pythonStr txtJ) (String.intercalate "\n\n" raw))]
        ∧ (handle_task eff body).1 = .response 200 (taskResponse tid msg reply)) := by
  have hht2 : (handle_task eff body).2 = (weatherBody eff (pythonStr txtJ)).2 := by
    simp [handle_task, h]
  have hht1 : (handle_task eff body).1
      = .response 200 (taskResponse tid msg (weatherBody eff (pythonStr txtJ)).1) := by
    simp [handle_task, h]
  refine ⟨?_, ?_, ?_⟩
  · rw [hht2]; exact (weatherBody_trace eff _).1
  · rw [hht2]; exact (weatherBody_trace eff _).2
  · intro sr raw reply hs hp hraw hl
    have hwb := weatherBody_success eff (pythonStr txtJ) sr raw reply hs hp hraw hl
    constructor
    · rw [hht2, hwb]
    · rw [hht1, hwb]

/-- C2 witness: the concrete London task issues the search, then the
LLM call with the templated prompt, and the LLM's reply lands in the
envelope. -/
theorem C2_witness :
    (handle_task wEffects wBody).2
      = [.search "current weather London",
         .llm (weatherPrompt "London" "Weather: Sunny, 20C")]
    ∧ (handle_task wEffects wBody).1
      = .response 200 (taskResponse (.str "task-1") wMsg "Nice weather in London") :=
  (C2_linear_flow wEffects wBody (.str "task-1") wMsg (.str "London") rfl).2.2
    (.obj [("results",
      .arr [.obj [("title", .str "Weather"), ("content", .str "Sunny, 20C")]])])
    ["Weather: Sunny, 20C"] "Nice weather in London" rfl rfl (by simp) rfl

/-- C6 witness: the SDK card for localhost:10003 has the agent's name
and a non-empty skills list. -/
theorem C6_witness :
    (build_agent_card "localhost" 10003).name = "Weather Agent"
    ∧ (build_agent_card "localhost" 10003).skills ≠ [] :=
  ⟨(C6_amended.2.2 "localhost" 10003).1, (C6_amended.2.2 "localhost" 10003).2.2⟩

/-- C10 witness: a concrete cancel request raises and enqueues
nothing. -/
theorem C10_witness :
    (cancel ⟨"weather in Paris", none, none⟩).1 = .error "Cancel not supported"
    ∧ (cancel ⟨"weather in Paris", none, none⟩).2 = ([] : List A2AEvent) :=
  ⟨(C10_cancel ⟨"weather in Paris", none, none⟩).1,
   (C10_cancel ⟨"weather in Paris", none, none⟩).2.1⟩
